import Mathlib

/-!
Verification of the compile→lower→execute→report pipeline of
`crates/cairo-lang-runner/src/wasm_cairo_interface.rs`.

The two functions of that file, `run_with_input_program_string` and
`generate_run_result_log`, are embedded shallowly below.  External
collaborators (the program database, the diagnostics reporter, the lowering
query, the execution engine, the item decoder `format_next_item`, the
process-wide captured-text log) are parameters of the embedding, gathered in
`PipelineEnv`; the control flow and the string-building of the unit itself
are translated statement by statement.
-/

namespace WasmCairo

/-- A field element, the engine's native numeric value type.  `Felt252`
values are rendered in decimal by both `Display` and `Debug`, so a natural
number carries all the information the renderer consumes. -/
abbrev Felt := Nat

/-- `RunResultValue` from `cairo-lang-runner`: tagged union of a successful
return or a program-level panic, each carrying an ordered sequence of field
elements. -/
inductive RunResultValue where
  | Success (values : List Felt)
  | Panic (values : List Felt)
deriving DecidableEq, Repr

/-- The fields of `RunResultStarknet` that `generate_run_result_log` reads:
the tagged value, the optional remaining-gas counter, and the memory trace
(a sequence of optional field elements). -/
structure RunResultStarknet where
  value : RunResultValue
  gas_counter : Option Felt
  memory : List (Option Felt)
deriving DecidableEq, Repr

/-- Modelled from the spec: the display item produced by the external
item-decoding collaborator (`format_next_item` of `casm_run`, outside this
unit).  An item is display text together with whether it is a string-typed
item (which the renderer must quote). -/
structure FormattedItem where
  item : String
  isString : Bool
deriving DecidableEq, Repr

/-- Modelled from the spec: `FormattedItem::quote_if_string` of the external
decoder — quote the item if it is a string-typed item, else return it
unchanged. -/
def FormattedItem.quote_if_string (i : FormattedItem) : String :=
  if i.isString then "\"" ++ i.item ++ "\"" else i.item

/-- The decoding collaborator: repeatedly calling `format_next_item` on an
iterator over the panic felts yields a finite stream of display items.  The
whole stream is the collaborator's contribution; the loop that consumes it
belongs to this unit and is embedded in `renderPanicItems`. -/
abbrev ItemDecoder := List Felt → List FormattedItem

/-- The `while let Some(item) = format_next_item(&mut felts)` loop of
`generate_run_result_log`, including its separator logic verbatim: `first`
starts `true`, and the statement `first = false` sits inside the
`if !first` branch, so the `", "` push is guarded by a flag that is never
transitioned. -/
def renderPanicItems : List FormattedItem → Bool → String → String
  | [], _, acc => acc
  | i :: rest, first, acc =>
    let step := if !first then (acc ++ ", ", false) else (acc, first)
    renderPanicItems rest step.2 (step.1 ++ i.quote_if_string)

/-- Rust's `{values:?}` debug rendering of a `Vec<Felt252>`: the decimal
values, comma-space separated, in square brackets. -/
def debugFelts (values : List Felt) : String :=
  "[" ++ String.intercalate ", " (values.map toString) ++ "]"

/-- One cell of the `print_full_memory` dump: `"_, "` for an empty cell,
`"{value}, "` for an occupied one. -/
def renderMemoryCell : Option Felt → String
  | none => "_, "
  | some value => toString value ++ ", "

/-- The `for cell in &result.memory` loop of `generate_run_result_log`. -/
def renderMemoryLoop (memory : List (Option Felt)) (acc : String) : String :=
  memory.foldl (fun acc cell => acc ++ renderMemoryCell cell) acc

/-- `generate_run_result_log`: builds the report string from the run result
and the two boolean flags.  `decode` stands for the external
`format_next_item` collaborator and `logText` for the process-wide captured
log (`LogDatabase::get_file_text("log_file")`), read only when
`use_dbg_print_hint` is set.  The function's only exit is `Ok`. -/
def generate_run_result_log (decode : ItemDecoder) (logText : String)
    (result : RunResultStarknet)
    (print_full_memory use_dbg_print_hint : Bool) : Except String String :=
  let s := ""
  let s := if use_dbg_print_hint then s ++ logText else s
  let s :=
    match result.value with
    | .Success values =>
      s ++ "Run completed successfully, returning " ++ debugFelts values ++ "\n"
    | .Panic values =>
      renderPanicItems (decode values) true (s ++ "Run panicked with [") ++ "].\n"
  let s :=
    match result.gas_counter with
    | some gas => s ++ "Remaining gas: " ++ toString gas ++ "\n"
    | none => s
  let s :=
    if print_full_memory then
      renderMemoryLoop result.memory (s ++ "Full memory: [") ++ "]\n"
    else s
  Except.ok s

/-- Modelled from the spec: an identifier of the lowered (Sierra) program is
either an internal identifier (to be replaced by the debug-name replacer) or
an already-substituted human-readable display name. -/
inductive SierraIdent where
  | internal (id : Nat)
  | display (name : String)
deriving DecidableEq, Repr

/-- Modelled from the spec: the lowered program — an instruction/identifier
structure on which the debug-name replacement acts, together with the
gas-counter requirement the Budget Validator queries
(`Program::requires_gas_counter`). -/
structure SierraProgram where
  idents : List SierraIdent
  requires_gas_counter : Bool
deriving DecidableEq, Repr

/-- Modelled from the spec: replacement of one identifier by the
`DebugReplacer` — an internal identifier is replaced by its display name, a
display name is left unchanged (nothing remains to replace). -/
def replaceIdent (names : Nat → String) : SierraIdent → SierraIdent
  | .internal id => .display (names id)
  | .display name => .display name

/-- Modelled from the spec: `DebugReplacer::apply` (from
`cairo-lang-sierra-generator`, outside this unit) — the pure
value transformation `apply(replacer, program) -> program` that replaces
every internal identifier in the lowered program by its display name. -/
def DebugReplacer.apply (names : Nat → String) (p : SierraProgram) :
    SierraProgram :=
  { p with idents := p.idents.map (replaceIdent names) }

/-- Modelled from the spec: `DebugReplacer::enrich_function_names` —
enrichment attaches display names in place of internal identifiers and does
not touch the instruction set, hence preserves the gas-counter
requirement. -/
def enrich_function_names (names : Nat → String) (p : SierraProgram) :
    SierraProgram :=
  { p with idents := p.idents.map (replaceIdent names) }

/-- Whether an identifier is still internal (unreplaced). -/
def SierraIdent.isInternal : SierraIdent → Bool
  | .internal _ => true
  | .display _ => false

/-- A lowered program is enriched when no internal identifiers remain. -/
def SierraProgram.enriched (p : SierraProgram) : Prop :=
  ∀ i ∈ p.idents, i.isInternal = false

instance (p : SierraProgram) : Decidable p.enriched := by
  unfold SierraProgram.enriched; infer_instance

/-- The engine's default cost model (`Default::default()` passed as the
metering mode when a budget was supplied). -/
structure CostModelConfig where
  overrides : List (Nat × Nat) := []
deriving DecidableEq, Repr

instance : Inhabited CostModelConfig := ⟨{}⟩

/-- `ProfilingInfoCollectionConfig::default()`, passed as the profiling mode
when profiling was requested. -/
structure ProfilingInfoCollectionConfig where
  max_stack_trace_depth : Nat := 100
deriving DecidableEq, Repr

instance : Inhabited ProfilingInfoCollectionConfig := ⟨{}⟩

/-- `StarknetState::default()`: the fresh, empty execution-context state
handed to every invocation. -/
structure StarknetState where
  storage : List (Felt × Felt) := []
deriving DecidableEq, Repr

instance : Inhabited StarknetState := ⟨{}⟩

/-- Auxiliary contract-execution metadata (`get_contracts_info`), consumed
read-only by the engine constructor. -/
structure ContractsInfo where
  entries : List Nat := []
deriving DecidableEq, Repr

/-- The typed failure exits of `run_with_input_program_string`, one per
`bail!`/`?` site, in source order. -/
inductive PipelineError where
  | setupFailure (msg : String)
  | diagnosticsFailure (text : String)
  | loweringFailure
  | budgetRequired
  | contractsInfoFailure (msg : String)
  | engineSetupFailure (msg : String)
  | entryPointNotFound (msg : String)
  | executionFailure (msg : String)
deriving DecidableEq, Repr

/-- The observable calls the pipeline makes into its collaborators, recorded
in source order so that reachability claims ("never reaches lowering", "the
engine is constructed with these modes") are statable. -/
inductive StageEvent where
  | dbBuild (skipAutoWithdrawGas : Bool)
  | setupProject
  | diagnosticsCheck (allowWarnings : Bool)
  | getDiagnosticsText
  | loweringQuery
  | enrichNames
  | contractsInfoCall
  | runnerNew (metering : Option CostModelConfig)
      (profiling : Option ProfilingInfoCollectionConfig)
  | findFunction (name : String)
  | runCall (func : Nat) (args : List Felt) (budget : Option Nat)
      (state : StarknetState)
deriving DecidableEq, Repr

/-- The external collaborators of `run_with_input_program_string`, fixed for
one pipeline invocation: the project setup, the diagnostics reporter's
verdict (a function of the `allow_warnings` configuration), the rendered
diagnostics text, the lowering query's answer, the debug-name table, the
contract-metadata extractor, the engine constructor, entry-point lookup,
the engine invocation, the item decoder and the captured-text log. -/
structure PipelineEnv where
  setupResult : Except String (List Nat)
  diagCheck : Bool → Bool
  diagnosticsText : String
  sierraProgram : Option SierraProgram
  replacerNames : Nat → String
  contractsInfoResult : Except String ContractsInfo
  runnerNewResult : Except String Unit
  findFunctionResult : String → Except String Nat
  runResult : Except String RunResultStarknet
  decode : ItemDecoder
  logText : String

/-- The fixed entry-point symbol looked up in the enriched program. -/
def mainEntryPointName : String := "::main"

/-- `run_with_input_program_string`: the stage sequencing of the pipeline,
statement by statement — database build (unmetered mode exactly when no
budget is supplied), project setup, diagnostics gate, lowering query,
debug-name enrichment, budget check, contract metadata, engine
construction with optional metering/profiling modes, entry-point lookup by
the fixed name, invocation with zero arguments and a fresh default state,
and finally the result renderer.  Returns the trace of collaborator calls
alongside the result. -/
def run_with_input_program_string (env : PipelineEnv)
    (available_gas : Option Nat)
    (allow_warnings print_full_memory run_profiler use_dbg_print_hint : Bool) :
    List StageEvent × Except PipelineError String :=
  let t := [StageEvent.dbBuild available_gas.isNone, StageEvent.setupProject]
  match env.setupResult with
  | .error msg => (t, .error (.setupFailure msg))
  | .ok _main_crate_ids =>
    let t := t ++ [StageEvent.diagnosticsCheck allow_warnings]
    if env.diagCheck allow_warnings then
      (t ++ [StageEvent.getDiagnosticsText],
        .error (.diagnosticsFailure env.diagnosticsText))
    else
      let t := t ++ [StageEvent.loweringQuery]
      match env.sierraProgram with
      | none => (t, .error .loweringFailure)
      | some sierra_program =>
        let sierra_program := enrich_function_names env.replacerNames sierra_program
        let t := t ++ [StageEvent.enrichNames]
        if available_gas.isNone && sierra_program.requires_gas_counter then
          (t, .error .budgetRequired)
        else
          let t := t ++ [StageEvent.contractsInfoCall]
          match env.contractsInfoResult with
          | .error msg => (t, .error (.contractsInfoFailure msg))
          | .ok _contracts_info =>
            let _sierra_program := DebugReplacer.apply env.replacerNames sierra_program
            let metering :=
              if available_gas.isSome then some (default : CostModelConfig) else none
            let profiling :=
              if run_profiler then some (default : ProfilingInfoCollectionConfig)
              else none
            let t := t ++ [StageEvent.runnerNew metering profiling]
            match env.runnerNewResult with
            | .error msg => (t, .error (.engineSetupFailure msg))
            | .ok _ =>
              let t := t ++ [StageEvent.findFunction mainEntryPointName]
              match env.findFunctionResult mainEntryPointName with
              | .error msg => (t, .error (.entryPointNotFound msg))
              | .ok func =>
                let t := t ++
                  [StageEvent.runCall func [] available_gas (default : StarknetState)]
                match env.runResult with
                | .error msg => (t, .error (.executionFailure msg))
                | .ok result =>
                  (t, (generate_run_result_log env.decode env.logText result
                        print_full_memory use_dbg_print_hint).mapError
                        PipelineError.executionFailure)

/-! ### Helper notions and lemmas shared by the claims -/

/-- The plain concatenation of the decoded items' display texts, with no
separator at all. -/
def concatItems : List FormattedItem → String
  | [] => ""
  | i :: rest => i.quote_if_string ++ concatItems rest

/-- Starting from the initial `first = true` state, the panic-item loop
never takes the separator branch: it emits the bare concatenation of the
items. -/
theorem renderPanicItems_true (items : List FormattedItem) (acc : String) :
    renderPanicItems items true acc = acc ++ concatItems items := by
  induction items generalizing acc with
  | nil => simp [renderPanicItems, concatItems, String.append_empty]
  | cons i rest ih =>
    simp only [renderPanicItems, Bool.not_true, Bool.false_eq_true, if_false,
      concatItems, ih, String.append_assoc]

/-- `String.join` distributes over `cons`. -/
theorem stringJoin_cons (s : String) (l : List String) :
    String.join (s :: l) = s ++ String.join l := by
  apply String.ext
  simp [String.join_eq]

/-- The memory-dump loop is the fold of the per-cell renderings. -/
theorem renderMemoryLoop_eq (memory : List (Option Felt)) (acc : String) :
    renderMemoryLoop memory acc =
      acc ++ String.join (memory.map renderMemoryCell) := by
  induction memory generalizing acc with
  | nil => simp [renderMemoryLoop, String.join, String.append_empty]
  | cons c rest ih =>
    simp only [renderMemoryLoop, List.foldl_cons] at *
    rw [List.map_cons, stringJoin_cons, ih, String.append_assoc]

/-- `generate_run_result_log` always returns `Ok`; this names the returned
string. -/
def reportString (decode : ItemDecoder) (logText : String)
    (result : RunResultStarknet)
    (print_full_memory use_dbg_print_hint : Bool) : String :=
  match generate_run_result_log decode logText result print_full_memory
      use_dbg_print_hint with
  | .ok s => s
  | .error _ => ""

theorem generate_eq_ok (decode : ItemDecoder) (logText : String)
    (result : RunResultStarknet) (pfm dbg : Bool) :
    generate_run_result_log decode logText result pfm dbg =
      Except.ok (reportString decode logText result pfm dbg) := rfl

/-- A concrete environment instantiating the pipeline's collaborators, used
to evaluate the pipeline theorems at closed inputs. -/
def envBase : PipelineEnv where
  setupResult := .ok []
  diagCheck := fun _ => false
  diagnosticsText := ""
  sierraProgram := some ⟨[], false⟩
  replacerNames := fun _ => ""
  contractsInfoResult := .ok ⟨[]⟩
  runnerNewResult := .ok ()
  findFunctionResult := fun _ => .ok 0
  runResult := .ok ⟨.Success [], none, []⟩
  decode := fun _ => []
  logText := ""

/-! ### The claims -/

/-- C1: for a Panic outcome whose values decode to exactly the two display
items `1` and `2` (with `print_full_memory = false` and
`use_dbg_print_hint = false`), the report contains no separating comma and
equals `"Run panicked with [12].\n"`; moreover, from the initial (never
transitioned) separator-suppression state the loop never emits the `", "`
separator, for any item stream. -/
theorem panic_two_items_no_separator (decode : ItemDecoder)
    (h : decode [1, 2] = [⟨("1"), false⟩, ⟨("2"), false⟩]) :
    generate_run_result_log decode ("") ⟨.Panic [1, 2], none, []⟩ false false =
      Except.ok ("Run panicked with [12].\n") ∧
    ∀ (items : List FormattedItem) (acc : String),
      renderPanicItems items true acc = acc ++ concatItems items := by
  refine ⟨?_, renderPanicItems_true⟩
  simp only [generate_run_result_log, h]
  rfl

theorem panic_two_items_no_separator_witness :
    generate_run_result_log
        (fun felts => if felts = [1, 2] then [⟨("1"), false⟩, ⟨("2"), false⟩]
          else []) ("")
        ⟨.Panic [1, 2], none, []⟩ false false =
      Except.ok ("Run panicked with [12].\n") :=
  (panic_two_items_no_separator _ (by rfl)).1

/-- C4: for every Success(values) outcome — any gas counter, any memory
trace, any flag combination and any captured log — the renderer appends
`"Run completed successfully, returning "` followed by the debug-style
rendering of the ordered value sequence and a line break, between the
optional log prefix and the optional gas and memory sections; in particular
a successful run returning the single field element `42` (no budget, flags
false) yields the report
`"Run completed successfully, returning [42]\n"`. -/
theorem success_report (decode : ItemDecoder) (logText : String)
    (values : List Felt) (gas : Option Felt) (memory : List (Option Felt))
    (pfm dbg : Bool) :
    generate_run_result_log decode logText ⟨.Success values, gas, memory⟩
        pfm dbg =
      Except.ok ((if dbg then logText else "") ++
        ("Run completed successfully, returning " ++
          debugFelts values ++ "\n") ++
        (match gas with
          | some g => "Remaining gas: " ++ toString g ++ "\n"
          | none => "") ++
        (if pfm then
          "Full memory: [" ++ String.join (memory.map renderMemoryCell) ++
            "]\n"
        else "")) ∧
    generate_run_result_log decode ("") ⟨.Success [42], none, []⟩ false false =
      Except.ok ("Run completed successfully, returning [42]\n") := by
  constructor
  · cases gas <;> cases pfm <;> cases dbg <;>
      simp [generate_run_result_log, renderMemoryLoop_eq,
        String.append_assoc, String.append_empty, String.empty_append] <;>
      rfl
  · rfl

/-- C5: with `print_full_memory = true` the report is the
`print_full_memory = false` report followed by the section
`"Full memory: ["`, one rendering per memory cell in order (`"_, "` for an
empty cell, `"{value}, "` for an occupied one, trailing separator not
trimmed), then `"]"` and a line break; the number of rendered cells equals
the length of the memory sequence. -/
theorem full_memory_dump (decode : ItemDecoder) (logText : String)
    (result : RunResultStarknet) (dbg : Bool) :
    generate_run_result_log decode logText result true dbg =
      Except.ok (reportString decode logText result false dbg ++
        "Full memory: [" ++
        String.join (result.memory.map renderMemoryCell) ++ "]\n") ∧
    (result.memory.map renderMemoryCell).length = result.memory.length := by
  refine ⟨?_, result.memory.length_map renderMemoryCell⟩
  simp [generate_run_result_log, reportString, renderMemoryLoop_eq,
    String.append_assoc]

/-- C6: the result renderer never fails — for every run result, flags, log
text and decoder, `generate_run_result_log` returns `Ok` with a report
string. -/
theorem generate_never_fails (decode : ItemDecoder) (logText : String)
    (result : RunResultStarknet) (pfm dbg : Bool) :
    ∃ s, generate_run_result_log decode logText result pfm dbg =
      Except.ok s :=
  ⟨reportString decode logText result pfm dbg, generate_eq_ok _ _ _ _ _⟩

/-- C7: rendering is deterministic — two invocations whose run results
agree on the value variant, gas counter and memory, with equal flags and
equal captured-log state, return byte-identical reports. -/
theorem render_deterministic (decode : ItemDecoder)
    (r₁ r₂ : RunResultStarknet) (lg₁ lg₂ : String)
    (pfm₁ pfm₂ dbg₁ dbg₂ : Bool)
    (hv : r₁.value = r₂.value) (hg : r₁.gas_counter = r₂.gas_counter)
    (hm : r₁.memory = r₂.memory) (hpfm : pfm₁ = pfm₂) (hdbg : dbg₁ = dbg₂)
    (hlg : lg₁ = lg₂) :
    generate_run_result_log decode lg₁ r₁ pfm₁ dbg₁ =
      generate_run_result_log decode lg₂ r₂ pfm₂ dbg₂ := by
  cases r₁; cases r₂
  simp only at hv hg hm
  subst hv; subst hg; subst hm; subst hpfm; subst hdbg; subst hlg
  rfl

theorem render_deterministic_witness :
    generate_run_result_log (fun _ => []) ("a") ⟨.Success [1], some 2, [none]⟩
        true true =
      generate_run_result_log (fun _ => []) ("a") ⟨.Success [1], some 2, [none]⟩
        true true :=
  render_deterministic (fun _ => []) _ _ _ _ _ _ _ _ rfl rfl rfl rfl rfl rfl

/-- C10 (counterexample): the clause "the log text never appears in the
Report" fails — with `use_dbg_print_hint = false` and the captured log set
to `"Run completed successfully, returning []\n"`, a successful run with no
return values yields a Report equal to that very log text, so the
(non-empty) log text appears verbatim in the Report. -/
theorem report_contains_log_counterexample :
    generate_run_result_log (fun _ => [])
        ("Run completed successfully, returning []\n")
        ⟨.Success [], none, []⟩ false false =
      Except.ok ("Run completed successfully, returning []\n") ∧
    ("Run completed successfully, returning []\n" : String) ≠ ("") :=
  ⟨rfl, by decide⟩

/-- C10 (amended): when `use_dbg_print_hint` is false the Report is
independent of the process-wide captured-text log — two runs differing only
in the log's contents produce identical Reports (the log is never read),
although its text may still coincide with Report text. -/
theorem report_independent_of_log (decode : ItemDecoder)
    (result : RunResultStarknet) (pfm : Bool) (lg₁ lg₂ : String) :
    generate_run_result_log decode lg₁ result pfm false =
      generate_run_result_log decode lg₂ result pfm false := rfl

/-- C9: debug-name enrichment is idempotent — `DebugReplacer.apply` on an
already-enriched program (no internal identifiers left) returns the program
unchanged, and applying it twice equals applying it once. -/
theorem debug_replacer_idempotent (names : Nat → String) (p : SierraProgram)
    (h : p.enriched) :
    DebugReplacer.apply names p = p ∧
    ∀ q : SierraProgram,
      DebugReplacer.apply names (DebugReplacer.apply names q) =
        DebugReplacer.apply names q := by
  constructor
  · cases p with
    | mk idents req =>
      simp only [DebugReplacer.apply, SierraProgram.mk.injEq, and_true]
      induction idents with
      | nil => rfl
      | cons i rest ih =>
        have hi := h i (List.mem_cons_self i rest)
        have hrest : SierraProgram.enriched ⟨rest, req⟩ := fun j hj =>
          h j (List.mem_cons_of_mem i hj)
        have := ih hrest
        cases i with
        | internal id => simp [SierraIdent.isInternal] at hi
        | display name =>
          simp only [List.map_cons, replaceIdent, List.cons.injEq]
          exact ⟨trivial, this⟩
  · intro q
    cases q with
    | mk idents req =>
      simp only [DebugReplacer.apply, List.map_map, SierraProgram.mk.injEq,
        and_true]
      apply List.map_congr_left
      intro i _
      cases i <;> rfl

theorem debug_replacer_idempotent_witness :
    DebugReplacer.apply (fun _ => ("f")) ⟨[SierraIdent.display ("g")], true⟩ =
      ⟨[SierraIdent.display ("g")], true⟩ :=
  (debug_replacer_idempotent (fun _ => ("f"))
    ⟨[SierraIdent.display ("g")], true⟩ (by decide)).1

/-- C2: when the pipeline reaches the budget check (setup succeeded,
diagnostics passed, lowering produced a program), a missing budget together
with a gas-counter-requiring program fails with `BudgetRequired`; and for
any invocation whatsoever with a budget present (any value, including 0),
the result is never `BudgetRequired`. -/
theorem budget_required_contract (env : PipelineEnv)
    (available_gas : Option Nat) (aw pfm rp dbg : Bool)
    (ids : List Nat) (prog : SierraProgram)
    (hsetup : env.setupResult = .ok ids)
    (hdiag : env.diagCheck aw = false)
    (hlow : env.sierraProgram = some prog) :
    (available_gas = none → prog.requires_gas_counter = true →
      (run_with_input_program_string env available_gas aw pfm rp dbg).2 =
        .error .budgetRequired) ∧
    (∀ (env₂ : PipelineEnv) (g : Nat) (aw₂ pfm₂ rp₂ dbg₂ : Bool),
      (run_with_input_program_string env₂ (some g) aw₂ pfm₂ rp₂ dbg₂).2 ≠
        .error PipelineError.budgetRequired) := by
  constructor
  · intro hgas hreq
    subst hgas
    simp [run_with_input_program_string, hsetup, hdiag, hlow,
      enrich_function_names, hreq]
  · intro env₂ g aw₂ pfm₂ rp₂ dbg₂
    unfold run_with_input_program_string
    cases hs : env₂.setupResult with
    | error msg => simp
    | ok ids₂ =>
      cases hd : env₂.diagCheck aw₂ with
      | true => simp
      | false =>
        cases hl : env₂.sierraProgram with
        | none => simp
        | some prog₂ =>
          cases hc : env₂.contractsInfoResult with
          | error msg => simp
          | ok info₂ =>
            cases hr : env₂.runnerNewResult with
            | error msg => simp
            | ok u =>
              cases hf : env₂.findFunctionResult mainEntryPointName with
              | error msg => simp
              | ok func =>
                cases hrun : env₂.runResult with
                | error msg => simp
                | ok result => simp [generate_eq_ok, Except.mapError]

theorem budget_required_contract_witness :
    (run_with_input_program_string
        { envBase with sierraProgram := some ⟨[], true⟩ }
        none false false false false).2 =
      Except.error PipelineError.budgetRequired :=
  (budget_required_contract _ none false false false false [] ⟨[], true⟩
    rfl rfl rfl).1 rfl rfl

/-- C3: if project setup succeeded but the diagnostics check fails with
`allow_warnings = false`, the pipeline returns `DiagnosticsFailure`
carrying the rendered diagnostics text, and the lowering query is never
invoked. -/
theorem diagnostics_gate_blocks_lowering (env : PipelineEnv)
    (available_gas : Option Nat) (pfm rp dbg : Bool) (ids : List Nat)
    (hsetup : env.setupResult = .ok ids)
    (hdiag : env.diagCheck false = true) :
    (run_with_input_program_string env available_gas false pfm rp dbg).2 =
      .error (.diagnosticsFailure env.diagnosticsText) ∧
    StageEvent.loweringQuery ∉
      (run_with_input_program_string env available_gas false pfm rp dbg).1 := by
  unfold run_with_input_program_string
  rw [hsetup]
  simp [hdiag]

theorem diagnostics_gate_blocks_lowering_witness :
    (run_with_input_program_string { envBase with diagCheck := fun _ => true }
        none false false false false).2 =
      .error (.diagnosticsFailure
        ({ envBase with diagCheck := fun _ => true } : PipelineEnv).diagnosticsText) ∧
    StageEvent.loweringQuery ∉
      (run_with_input_program_string { envBase with diagCheck := fun _ => true }
        none false false false false).1 :=
  diagnostics_gate_blocks_lowering _ none false false false [] rfl rfl

/-- C8: once the pipeline reaches engine construction, the engine is built
with `metering_mode` equal to the default cost model exactly when a budget
was supplied (else none) and `profiling_mode` equal to the default
profiling configuration exactly when profiling was requested (else none);
entry-point lookup uses the fixed name `"::main"` and its failure surfaces
as `EntryPointNotFound`, while on success the engine is invoked with zero
arguments, the configured budget and a fresh default execution-context
state. -/
theorem engine_adapter_contract (env : PipelineEnv)
    (available_gas : Option Nat) (aw pfm rp dbg : Bool)
    (ids : List Nat) (prog : SierraProgram) (info : ContractsInfo)
    (hsetup : env.setupResult = .ok ids)
    (hdiag : env.diagCheck aw = false)
    (hlow : env.sierraProgram = some prog)
    (hgas : (available_gas.isNone && prog.requires_gas_counter) = false)
    (hci : env.contractsInfoResult = .ok info) :
    StageEvent.runnerNew
        (if available_gas.isSome then some (default : CostModelConfig) else none)
        (if rp then some (default : ProfilingInfoCollectionConfig) else none) ∈
      (run_with_input_program_string env available_gas aw pfm rp dbg).1 ∧
    (∀ msg, env.runnerNewResult = .ok () →
      env.findFunctionResult mainEntryPointName = .error msg →
      (run_with_input_program_string env available_gas aw pfm rp dbg).2 =
        .error (.entryPointNotFound msg)) ∧
    (∀ func, env.runnerNewResult = .ok () →
      env.findFunctionResult mainEntryPointName = .ok func →
      StageEvent.runCall func [] available_gas (default : StarknetState) ∈
        (run_with_input_program_string env available_gas aw pfm rp dbg).1) := by
  unfold run_with_input_program_string
  rw [hsetup]
  simp only [hdiag, Bool.false_eq_true, if_false, hlow]
  refine ⟨?_, ?_, ?_⟩
  · simp only [enrich_function_names, hgas, Bool.false_eq_true, if_false, hci]
    cases hr : env.runnerNewResult with
    | error msg => simp
    | ok u =>
      cases hf : env.findFunctionResult mainEntryPointName with
      | error msg => simp
      | ok func =>
        cases hrun : env.runResult with
        | error msg => simp
        | ok result => simp
  · intro msg hr hf
    simp only [enrich_function_names, hgas, Bool.false_eq_true, if_false, hci,
      hr, hf]
  · intro func hr hf
    simp only [enrich_function_names, hgas, Bool.false_eq_true, if_false, hci,
      hr, hf]
    cases hrun : env.runResult with
    | error msg => simp
    | ok result => simp

theorem engine_adapter_contract_witness :
    StageEvent.runCall 0 [] none (default : StarknetState) ∈
      (run_with_input_program_string envBase none false false false false).1 :=
  (engine_adapter_contract envBase none false false false false [] ⟨[], false⟩
    ⟨[]⟩ rfl rfl rfl rfl rfl).2.2 0 rfl rfl

end WasmCairo
